import Mathlib

/-!
Verification of the social-summarizer repository's persistent store,
capability managers, channel manager and summary pipeline.

The definitions below are a shallow embedding of the Python sources:

* `YT` namespace — `src/time_reclamation/core/youtube/database.py`
  (`YouTubeDatabase`).  The sqlite table `youtube_videos` is modelled as a
  list of rows in insertion order; timestamps are naturals (sqlite stores
  ISO-8601 strings whose lexicographic order agrees with chronological
  order, so `Nat` with `≤` is an order-faithful model).  Each write
  operation takes the current time `now` explicitly.
* `Mgr` namespace — the three capability managers
  (`infrastructure/llm/manager.py`, `infrastructure/tts/manager.py`,
  `infrastructure/notifications/manager.py`).
* `Summary` namespace — `core/youtube/summary_service.py`.
* `CM` namespace — `core/youtube/channel_manager.py`.
-/

namespace YT

/-- A row of the `youtube_videos` table, with exactly the columns created by
`YouTubeDatabase._initialize_tables` (the autoincrement `id` is represented by
the row's position in the list).  Note the table has no `llm_processed`
column. -/
structure VideoRow where
  url : String
  video_id : Option String
  title : Option String
  channel_name : Option String
  channel_url : Option String
  transcript_path : Option String
  language : Option String
  source_type : Option String
  total_entries : Int
  summary_processed : Bool
  summary_text : Option String
  summary_audio_path : Option String
  summary_processed_at : Option Nat
  summary_error : Option String
  created_at : Nat
  updated_at : Nat
  fetched_at : Option String
deriving Repr, DecidableEq

/-- The store: rows of `youtube_videos` in insertion (rowid) order. -/
abbrev DB := List VideoRow

/-- Column names of the `youtube_videos` table exactly as enumerated in the
CREATE TABLE statement of `_initialize_tables` (database.py lines 26-47). -/
def youtube_videos_columns : List String :=
  ["id", "url", "video_id", "title", "channel_name", "channel_url",
   "transcript_path", "language", "source_type", "total_entries",
   "summary_processed", "summary_text", "summary_audio_path",
   "summary_processed_at", "summary_error", "created_at", "updated_at",
   "fetched_at"]

/-- Modelled from the spec: the field list of the persisted `VideoRecord`
enumerated in spec section 3 (missing from the code's CREATE TABLE is the
final `llm_processed` field). -/
def spec_video_record_fields : List String :=
  ["url", "video_id", "title", "channel_name", "channel_url",
   "transcript_path", "language", "source_type", "total_entries",
   "summary_processed", "summary_text", "summary_audio_path",
   "summary_processed_at", "summary_error", "created_at", "updated_at",
   "fetched_at", "llm_processed"]

/-- The video-metadata dictionary passed to `save_video`; absent dict keys are
`none` (`dict.get` defaults), `total_entries` defaults to 0. -/
structure VideoData where
  url : String
  video_id : Option String := none
  title : Option String := none
  channel_name : Option String := none
  channel_url : Option String := none
  language : Option String := none
  source_type : Option String := none
  total_entries : Int := 0
  fetched_at : Option String := none
deriving Repr, DecidableEq

/-- `get_video_by_url`: `SELECT * FROM youtube_videos WHERE url = ?` with
`fetchone()` — the first row whose url matches, or none. -/
def get_video_by_url (db : DB) (video_url : String) : Option VideoRow :=
  db.find? (fun r => r.url = video_url)

/-- The effect of `UPDATE youtube_videos SET ... WHERE url = ?`: apply `f` to
every row whose url matches (at most one on reachable stores, since the
column is UNIQUE). -/
def updateRow (u : String) (f : VideoRow → VideoRow) (db : DB) : DB :=
  db.map (fun r => if r.url = u then f r else r)

/-- `save_video`: reads the row by url first; if it exists, UPDATE of the
metadata columns (not `video_id`, not the summary columns, not `created_at`);
otherwise INSERT of a fresh row whose summary columns take the schema
defaults (`summary_processed` FALSE, the rest NULL). -/
def save_video (db : DB) (vd : VideoData) (transcript_path : Option String)
    (now : Nat) : DB :=
  match get_video_by_url db vd.url with
  | some _ =>
      updateRow vd.url (fun r =>
        { r with
          title := vd.title
          channel_name := vd.channel_name
          channel_url := vd.channel_url
          transcript_path := transcript_path
          language := vd.language
          source_type := vd.source_type
          total_entries := vd.total_entries
          updated_at := now
          fetched_at := vd.fetched_at }) db
  | none =>
      db ++ [{ url := vd.url
               video_id := vd.video_id
               title := vd.title
               channel_name := vd.channel_name
               channel_url := vd.channel_url
               transcript_path := transcript_path
               language := vd.language
               source_type := vd.source_type
               total_entries := vd.total_entries
               summary_processed := false
               summary_text := none
               summary_audio_path := none
               summary_processed_at := none
               summary_error := none
               created_at := now
               updated_at := now
               fetched_at := vd.fetched_at }]

/-- Rows ordered by ascending `created_at` (SQL `ORDER BY created_at ASC`). -/
def createdAsc (a b : VideoRow) : Prop := a.created_at ≤ b.created_at

/-- Rows ordered by descending `created_at` (SQL `ORDER BY created_at DESC`). -/
def createdDesc (a b : VideoRow) : Prop := b.created_at ≤ a.created_at

/-- Rows ordered by descending `updated_at` (SQL `ORDER BY updated_at DESC`). -/
def updatedDesc (a b : VideoRow) : Prop := b.updated_at ≤ a.updated_at

instance : DecidableRel createdAsc := fun a b => Nat.decLe a.created_at b.created_at
instance : DecidableRel createdDesc := fun a b => Nat.decLe b.created_at a.created_at
instance : DecidableRel updatedDesc := fun a b => Nat.decLe b.updated_at a.updated_at

instance : IsTotal VideoRow createdAsc := ⟨fun a b => Nat.le_total a.created_at b.created_at⟩
instance : IsTrans VideoRow createdAsc := ⟨fun _ _ _ h h' => Nat.le_trans h h'⟩
instance : IsTotal VideoRow createdDesc := ⟨fun a b => (Nat.le_total b.created_at a.created_at).symm.symm.imp id id⟩
instance : IsTrans VideoRow createdDesc := ⟨fun _ _ _ h h' => Nat.le_trans h' h⟩
instance : IsTotal VideoRow updatedDesc := ⟨fun a b => (Nat.le_total b.updated_at a.updated_at).imp id id⟩
instance : IsTrans VideoRow updatedDesc := ⟨fun _ _ _ h h' => Nat.le_trans h' h⟩

/-- Python `if limit:` guards the `LIMIT ?` clause, so a limit of `None`
or `0` (falsy) applies no limit. -/
def applyLimit (lim : Option Nat) (l : List VideoRow) : List VideoRow :=
  match lim with
  | none => l
  | some n => if n = 0 then l else l.take n

/-- Python `if channel_url:` guards the channel filter, so `None` or the
empty string (falsy) applies no filter. -/
def effChannel (ch : Option String) : Option String :=
  match ch with
  | none => none
  | some c => if c = "" then none else some c

/-- The WHERE clause of `get_videos_by_channel`: `channel_url = ?`.
A NULL `channel_url` never compares equal in SQL. -/
def channelMatch (channel_url : String) (r : VideoRow) : Bool :=
  r.channel_url = some channel_url

/-- `get_videos_by_channel`: `WHERE channel_url = ? ORDER BY created_at DESC`
with an optional LIMIT. -/
def get_videos_by_channel (db : DB) (channel_url : String) (lim : Option Nat) :
    List VideoRow :=
  applyLimit lim
    (List.insertionSort createdDesc (db.filter (channelMatch channel_url)))

/-- `mark_llm_processed` executes
`UPDATE youtube_videos SET llm_processed = ?, updated_at = ? WHERE url = ?`.
sqlite rejects a statement whose SET clause names a column absent from the
table; the except-handler then returns False and nothing is committed.
The then-branch below (reached only if the schema had the column — it does
not, see `youtube_videos_columns`) cannot set `llm_processed` because the row
type, like the table, has no such field; it is dead code on this schema. -/
def mark_llm_processed (db : DB) (video_url : String) (now : Nat) : Bool × DB :=
  if youtube_videos_columns.contains "llm_processed" then
    (true, updateRow video_url (fun r => { r with updated_at := now }) db)
  else
    (false, db)

/-- `get_unprocessed_videos`:
`WHERE llm_processed = FALSE AND transcript_path IS NOT NULL ORDER BY created_at ASC`.
The WHERE clause names the column `llm_processed`, which is absent from the
table, so sqlite rejects the query and the except-handler returns the empty
list.  The then-branch (dead on this schema) cannot test `llm_processed`
since rows have no such field. -/
def get_unprocessed_videos (db : DB) (lim : Option Nat) : List VideoRow :=
  if youtube_videos_columns.contains "llm_processed" then
    applyLimit lim
      (List.insertionSort createdAsc (db.filter (fun r => r.transcript_path.isSome)))
  else
    []

/-- The WHERE clause of `get_unsummarized_videos`:
`summary_processed = FALSE AND transcript_path IS NOT NULL` plus the optional
`AND channel_url = ?` (applied only when the argument is truthy). -/
def unsummarizedMatch (channel_url : Option String) (r : VideoRow) : Bool :=
  !r.summary_processed && r.transcript_path.isSome &&
    (match effChannel channel_url with
     | some c => r.channel_url = some c
     | none => true)

/-- `get_unsummarized_videos`: the rows matching `unsummarizedMatch`,
`ORDER BY created_at ASC`, optional LIMIT. -/
def get_unsummarized_videos (db : DB) (channel_url : Option String)
    (lim : Option Nat) : List VideoRow :=
  applyLimit lim
    (List.insertionSort createdAsc (db.filter (unsummarizedMatch channel_url)))

/-- `mark_summary_processed`: UPDATE setting `summary_processed` true, the
summary text and audio path, `summary_processed_at`, `summary_error = NULL`
and `updated_at`, for the row matching the url. -/
def mark_summary_processed (db : DB) (video_url : String) (summary_text : String)
    (audio_path : Option String) (now : Nat) : DB :=
  updateRow video_url (fun r =>
    { r with
      summary_processed := true
      summary_text := some summary_text
      summary_audio_path := audio_path
      summary_processed_at := some now
      summary_error := none
      updated_at := now }) db

/-- `mark_summary_error`: UPDATE setting only `summary_error` and
`updated_at` for the row matching the url. -/
def mark_summary_error (db : DB) (video_url : String) (error_message : String)
    (now : Nat) : DB :=
  updateRow video_url
    (fun r => { r with summary_error := some error_message, updated_at := now }) db

/-- The WHERE clause of `get_failed_summaries`:
`summary_error IS NOT NULL AND transcript_path IS NOT NULL`. -/
def failedMatch (r : VideoRow) : Bool :=
  r.summary_error.isSome && r.transcript_path.isSome

/-- `get_failed_summaries`: the rows matching `failedMatch`, ordered by
descending `updated_at`, optional LIMIT. -/
def get_failed_summaries (db : DB) (lim : Option Nat) : List VideoRow :=
  applyLimit lim (List.insertionSort updatedDesc (db.filter failedMatch))

end YT

namespace YT

/-- A write operation on the store, one constructor per write method of
`YouTubeDatabase` used by the pipeline. -/
inductive StoreOp where
  | save (vd : VideoData) (transcript_path : Option String) (now : Nat)
  | markProcessed (url : String) (text : String) (audio : Option String) (now : Nat)
  | markError (url : String) (msg : String) (now : Nat)
  | markLLM (url : String) (now : Nat)
deriving Repr, DecidableEq

/-- Apply one write operation to the store. -/
def applyOp (db : DB) : StoreOp → DB
  | .save vd tp now => save_video db vd tp now
  | .markProcessed u t a now => mark_summary_processed db u t a now
  | .markError u m now => mark_summary_error db u m now
  | .markLLM u now => (mark_llm_processed db u now).2

/-- Run a sequence of write operations. -/
def runOps (db : DB) (ops : List StoreOp) : DB := ops.foldl applyOp db

/-- The state-exclusivity predicate: every summary-processed row has a NULL
`summary_error`. -/
def exclusive (db : DB) : Bool :=
  db.all (fun r => !r.summary_processed || r.summary_error.isNone)

/-- A schedule is safe when `mark_summary_error` is only ever applied to a
url whose row is not currently summary-processed (the service's error paths
run instead of, not after, `mark_summary_processed` for a given attempt). -/
def safeOps (db : DB) : List StoreOp → Bool
  | [] => true
  | op :: rest =>
    (match op with
     | .markError u _ _ => db.all (fun r => !(r.url == u) || !r.summary_processed)
     | _ => true) && safeOps (applyOp db op) rest

end YT

/-- Python string interpolation of a possibly-None value (`str(None)` and
f-string rendering of `None` produce the text "None"). -/
def pyStr : Option String → String
  | some s => s
  | none => "None"

/-- Python `str.lower()`. -/
def pyLower (s : String) : String := ⟨s.data.map Char.toLower⟩

/-- Python `str.endswith(suffix)`. -/
def pyEndsWith (s suffix : String) : Bool :=
  decide (suffix.data.length ≤ s.data.length) &&
    (s.data.drop (s.data.length - suffix.data.length) == suffix.data)

/-- Python `str.split()` with no argument: split on runs of whitespace,
discarding empty pieces. -/
def pySplit (s : String) : List String :=
  let fin := s.data.foldr
    (fun c acc =>
      if c.isWhitespace then
        (if acc.1 = ([] : List Char) then ([], acc.2) else ([], acc.1 :: acc.2))
      else (c :: acc.1, acc.2))
    (([] : List Char), ([] : List (List Char)))
  (if fin.1 = [] then fin.2 else fin.1 :: fin.2).map (fun cs => ⟨cs⟩)

namespace Mgr

/-- Status enum shared in shape by `LLMStatus` (llm/interface.py). -/
inductive LLMStatus where
  | success | failed | pending
deriving Repr, DecidableEq

/-- `LLMResult` (llm/interface.py); the wall-clock timing field and the
opaque provider-response payload are out of the model. -/
structure LLMResult where
  status : LLMStatus
  response : Option String := none
  error_details : Option String := none
  token_count : Option Nat := none
deriving Repr, DecidableEq

/-- `TTSStatus` (tts/interface.py). -/
inductive TTSStatus where
  | success | failed | pending
deriving Repr, DecidableEq

/-- `TTSResult` (tts/interface.py); timing/duration floats and the opaque
provider response are out of the model. -/
structure TTSResult where
  status : TTSStatus
  output_file : Option String := none
  error_details : Option String := none
deriving Repr, DecidableEq

/-- `NotificationStatus` (notifications/interface.py). -/
inductive NotificationStatus where
  | success | failed | pending
deriving Repr, DecidableEq

/-- `NotificationResult` (notifications/interface.py); the opaque provider
response is out of the model. -/
structure NotificationResult where
  status : NotificationStatus
  message : Option String := none
  error_details : Option String := none
deriving Repr, DecidableEq

/-- A registered LLM provider instance: its registry key, the current value
of `is_configured()`, and its primary action `generate(system, user)`. -/
structure LLMInstance where
  name : String
  configured : Bool
  generate : String → String → LLMResult

/-- A registered TTS provider instance with primary action
`generate_speech(text, filename)`. -/
structure TTSInstance where
  name : String
  configured : Bool
  generate_speech : String → String → TTSResult

/-- A registered notification provider instance with primary action
`send_message(message)`. -/
structure NotificationInstance where
  name : String
  configured : Bool
  send_message : String → NotificationResult

/-- Python `not payload.strip()` — true iff every character of the payload
is whitespace (the empty string included). -/
def stripEmpty (s : String) : Bool := s.data.all Char.isWhitespace

/-- `LLMManager.get_available_instances`: names of the registered instances,
in registration order, whose `is_configured()` is currently true. -/
def llmAvailable (ps : List LLMInstance) : List String :=
  (ps.filter (fun p => p.configured)).map (fun p => p.name)

/-- `TTSManager.get_available_instances`. -/
def ttsAvailable (ps : List TTSInstance) : List String :=
  (ps.filter (fun p => p.configured)).map (fun p => p.name)

/-- `NotificationManager.get_available_instances`. -/
def notifAvailable (ps : List NotificationInstance) : List String :=
  (ps.filter (fun p => p.configured)).map (fun p => p.name)

/-- `LLMManager.generate_response`.  The second component records the names
of the instances whose primary action was invoked (instrumentation: every
early-return path performs no provider call). -/
def generate_response (ps : List LLMInstance) (user_prompt : String)
    (instance_name : Option String) (system_prompt : Option String) :
    LLMResult × List String :=
  if stripEmpty user_prompt then
    ({ status := .failed, error_details := some "User prompt cannot be empty" }, [])
  else
    let iname? := match instance_name with
      | some n => some n
      | none => (llmAvailable ps).head?
    match iname? with
    | none =>
        ({ status := .failed,
           error_details := some "No LLM provider instances are configured" }, [])
    | some iname =>
      match ps.find? (fun p => p.name = iname) with
      | none =>
          ({ status := .failed,
             error_details :=
               some ("LLM provider instance '" ++ iname ++ "' is not available") }, [])
      | some p =>
        if p.configured = false then
          ({ status := .failed,
             error_details :=
               some ("LLM provider instance '" ++ iname ++ "' is not properly configured") }, [])
        else
          (p.generate (system_prompt.getD "") user_prompt, [p.name])

/-- `TTSManager._generate_filename`: a truthy user filename is kept (with a
`.wav` extension appended when missing); otherwise a timestamp-based name. -/
def generate_filename (user_filename : Option String) (ts : String) : String :=
  match user_filename with
  | some f =>
      if f = "" then "tts_" ++ ts ++ ".wav"
      else if pyEndsWith (pyLower f) ".wav" then f else f ++ ".wav"
  | none => "tts_" ++ ts ++ ".wav"

/-- `TTSManager.generate_speech`, instrumented like `generate_response`;
`ts` is the timestamp used for an auto-generated filename. -/
def generate_speech (ps : List TTSInstance) (text : String)
    (output_filename : Option String) (instance_name : Option String)
    (ts : String) : TTSResult × List String :=
  if stripEmpty text then
    ({ status := .failed, error_details := some "Text cannot be empty" }, [])
  else
    let iname? := match instance_name with
      | some n => some n
      | none => (ttsAvailable ps).head?
    match iname? with
    | none =>
        ({ status := .failed,
           error_details := some "No TTS provider instances are configured" }, [])
    | some iname =>
      match ps.find? (fun p => p.name = iname) with
      | none =>
          ({ status := .failed,
             error_details :=
               some ("TTS provider instance '" ++ iname ++ "' is not available") }, [])
      | some p =>
        if p.configured = false then
          ({ status := .failed,
             error_details :=
               some ("TTS provider instance '" ++ iname ++ "' is not properly configured") }, [])
        else
          (p.generate_speech text (generate_filename output_filename ts), [p.name])

/-- `NotificationManager.send_message`, instrumented like
`generate_response`. -/
def send_message (ps : List NotificationInstance) (message : String)
    (instance_name : Option String) : NotificationResult × List String :=
  if stripEmpty message then
    ({ status := .failed, error_details := some "Message cannot be empty" }, [])
  else
    let iname? := match instance_name with
      | some n => some n
      | none => (notifAvailable ps).head?
    match iname? with
    | none =>
        ({ status := .failed,
           error_details := some "No notification provider instances are configured" }, [])
    | some iname =>
      match ps.find? (fun p => p.name = iname) with
      | none =>
          ({ status := .failed,
             error_details :=
               some ("Provider instance '" ++ iname ++ "' is not available") }, [])
      | some p =>
        if p.configured = false then
          ({ status := .failed,
             error_details :=
               some ("Provider instance '" ++ iname ++ "' is not properly configured") }, [])
        else
          (p.send_message message, [p.name])

end Mgr

namespace Summary

/-- The default summarization system prompt of `SummaryService`. -/
def DEFAULT_SYSTEM_PROMPT : String :=
  "You are a podcast host creating an engaging audio summary of a YouTube video transcript.\n\nYour task:\n1. Convert the transcript into a conversational, easy-to-listen format\n2. Focus on the key insights, main points, and takeaways\n3. Make it sound natural for audio playback (use conversational language)\n4. Keep it concise but informative (aim for 3-5 minutes when spoken)\n5. Start with a brief intro mentioning the video title\n6. End with a conclusion summarizing the main value\n\nStyle: Conversational, engaging, podcast-like\nTone: Friendly but informative\nLength: 500-800 words (approximately 3-5 minutes of audio)\n\nImportant: Output ONLY the summary text, no meta-commentary or explanations."

/-- The object `load_transcript_by_path` returns (the `transcript` field of a
cache file): the text and, in the metadata, a title.  The service reads only
`text`; the metadata title is carried to state scenarios faithfully. -/
structure TranscriptData where
  text : Option String := none
  metadata_title : Option String := none
deriving Repr, DecidableEq

/-- The per-channel `summary_config` mapping (absent keys are `none`). -/
structure SummaryConfig where
  llm_provider : Option String := none
  tts_provider : Option String := none
  notification_provider : Option String := none
  system_prompt : Option String := none
deriving Repr, DecidableEq

/-- The collaborators of `SummaryService.process_video_summary`, stubbed at
the same boundaries the service calls them: the cache loader and the three
capability managers. -/
structure Env where
  cache_load : String → Option TranscriptData
  llm_generate : String → Option String → String → Mgr.LLMResult
  tts_generate : String → String → Option String → Mgr.TTSResult
  notif_send : String → Option String → Mgr.NotificationResult

/-- The result dictionary of `process_video_summary` (keys absent from a
given return are `none` / `false`). -/
structure Result where
  success : Bool
  error : Option String := none
  skipped : Bool := false
  video_title : Option String := none
  summary_length : Option Nat := none
  audio_path : Option String := none
  text_path : Option String := none
deriving Repr, DecidableEq

/-- The notification message composed in step 4 of the pipeline (the leading
characters reproduce the literal bytes of the source file). -/
def notification_message (video_title channel_name : Option String)
    (estimated_minutes : Nat) : String :=
  "ðŸŽ¥ New Video Summary: " ++ pyStr video_title ++ "\n\nChannel: " ++
    pyStr channel_name ++ "\nDuration: ~" ++ toString estimated_minutes ++
    " minutes\n\n[Audio file attached]"

/-- `SummaryService.process_video_summary`.  `ts` is the
`%Y%m%d_%H%M%S` timestamp used in the text/audio filenames and `now` the
store-write time.  The best-effort write of the summary text file (step 2)
has no observable effect beyond the returned `text_path`.  A `None` LLM
response makes `len(summary_text)` raise in the success log line; the outer
handler records a summary error, which the model reproduces. -/
def process_video_summary (env : Env) (db : YT.DB) (video_url : String)
    (summary_config : Option SummaryConfig) (ts : String) (now : Nat) :
    Result × YT.DB :=
  match YT.get_video_by_url db video_url with
  | none => ({ success := false, error := some "Video not found in database" }, db)
  | some video =>
    match video.transcript_path with
    | none =>
        ({ success := false, skipped := true, error := some "No transcript available" }, db)
    | some tp =>
      if tp = "" then
        ({ success := false, skipped := true, error := some "No transcript available" }, db)
      else
        match env.cache_load tp with
        | none => ({ success := false, error := some "Failed to load transcript" }, db)
        | some td =>
          match td.text with
          | none => ({ success := false, error := some "Failed to load transcript" }, db)
          | some t =>
            if t = "" then
              ({ success := false, error := some "Failed to load transcript" }, db)
            else
              let video_title := video.title
              let vid := pyStr video.video_id
              let cfg := summary_config.getD {}
              let system_prompt := cfg.system_prompt.getD DEFAULT_SYSTEM_PROMPT
              let llm := env.llm_generate t cfg.llm_provider system_prompt
              if llm.status ≠ Mgr.LLMStatus.success then
                let msg := "LLM generation failed: " ++ pyStr llm.error_details
                ({ success := false, error := some msg },
                 YT.mark_summary_error db video_url msg now)
              else
                match llm.response with
                | none =>
                    let msg := "Error processing video summary: object of type 'NoneType' has no len()"
                    ({ success := false, error := some msg },
                     YT.mark_summary_error db video_url msg now)
                | some summary_text =>
                  let text_path :=
                    "cache_data/summaries/text/summary_" ++ vid ++ "_" ++ ts ++ ".txt"
                  let audio_filename := "summary_" ++ vid ++ "_" ++ ts ++ ".wav"
                  let tts := env.tts_generate summary_text audio_filename cfg.tts_provider
                  if tts.status ≠ Mgr.TTSStatus.success then
                    let msg := "TTS conversion failed: " ++ pyStr tts.error_details
                    ({ success := false, error := some msg },
                     YT.mark_summary_error db video_url msg now)
                  else
                    let audio_path := pyStr tts.output_file
                    let estimated_minutes := (pySplit summary_text).length / 150
                    let message :=
                      notification_message video_title video.channel_name estimated_minutes
                    let _nres := env.notif_send message cfg.notification_provider
                    ({ success := true
                       video_title := video_title
                       summary_length := some summary_text.length
                       audio_path := some audio_path
                       text_path := some text_path },
                     YT.mark_summary_processed db video_url summary_text (some audio_path) now)

end Summary

namespace CM

/-- A channel configuration (`ChannelConfig` dataclass). -/
structure ChannelConfig where
  name : String
  scrap : Bool
  url : String
  max_videos : Nat
  language : String
  cache_folder : String
deriving Repr, DecidableEq

/-- One entry of the video-listing result (`get_latest_videos`); absent dict
keys are `none`. -/
structure VideoMeta where
  id : Option String := none
  url : Option String := none
  title : Option String := none
  fetched_at : Option String := none
deriving Repr, DecidableEq

/-- The transcript dictionary returned by `get_video_transcript`: the text
and the metadata fields `_process_video` reads (flattened). -/
structure TranscriptFetch where
  text : Option String := none
  language : Option String := none
  source_type : Option String := none
  total_entries : Int := 0
  fetched_at : Option String := none
  error : Option String := none
deriving Repr, DecidableEq

/-- The external collaborators of the channel manager: the video-listing and
transcript-fetch calls (which may raise, hence `Except`), the cache existence
check and the cache save. -/
structure Env where
  latest_videos : String → Nat → Except String (List VideoMeta)
  video_transcript : String → String → Except String (Option TranscriptFetch)
  transcript_cached : String → Option String → Option String → Bool
  save_transcript : TranscriptFetch → String → Option String → Option String → Option String

/-- The per-video result dictionary of `_process_video`. -/
structure VideoResult where
  video_id : Option String := none
  title : Option String := none
  url : Option String := none
  status : String := "unknown"
  transcript_path : Option String := none
  error : Option String := none
deriving Repr, DecidableEq

/-- `YouTubeChannelManager._process_video`.  Every exception inside it is
caught and becomes status "error", so the function itself never fails.
A `None` transcript dictionary hits `transcript_data.get('metadata', {})`
inside the falsy-transcript branch and raises AttributeError, which the
handler converts to status "error" (not "no_transcript"). -/
def process_video (env : Env) (db : YT.DB) (v : VideoMeta) (ch : ChannelConfig)
    (force_refresh : Bool) (now : Nat) : VideoResult × YT.DB :=
  let base : VideoResult := { video_id := v.id, title := v.title, url := v.url }
  match v.url with
  | none =>
      ({ base with
           status := "error"
           error := some ("Error processing video " ++ pyStr v.title ++ ": 'url'") }, db)
  | some video_url =>
    let title := v.title.getD "Untitled"
    let cachedPath : Option String :=
      if force_refresh then none
      else
        match YT.get_video_by_url db video_url with
        | some ex =>
          match ex.transcript_path with
          | some p =>
              if p ≠ "" ∧ env.transcript_cached ch.cache_folder v.id (some title) then
                some p
              else none
          | none => none
        | none => none
    match cachedPath with
    | some p => ({ base with status := "cached", transcript_path := some p }, db)
    | none =>
      match env.video_transcript video_url ch.language with
      | .error e =>
          ({ base with
               status := "error"
               error := some ("Error processing video " ++ pyStr v.title ++ ": " ++ e) }, db)
      | .ok none =>
          ({ base with
               status := "error"
               error := some ("Error processing video " ++ pyStr v.title ++
                 ": 'NoneType' object has no attribute 'get'") }, db)
      | .ok (some td) =>
        let noTranscript : Unit → VideoResult × YT.DB := fun _ =>
          ({ base with
               status := "no_transcript"
               error := some (td.error.getD "No transcript available") },
           YT.save_video db
             { url := video_url
               video_id := v.id
               title := some title
               channel_name := some ch.name
               channel_url := some ch.url
               language := some ch.language
               fetched_at := v.fetched_at } none now)
        match td.text with
        | none => noTranscript ()
        | some t =>
          if t = "" then noTranscript ()
          else
            match env.save_transcript td ch.cache_folder v.id (some title) with
            | some path =>
                if path = "" then
                  ({ base with
                       status := "error"
                       error := some "Failed to save transcript to cache" }, db)
                else
                  ({ base with status := "new_transcript", transcript_path := some path },
                   YT.save_video db
                     { url := video_url
                       video_id := v.id
                       title := some title
                       channel_name := some ch.name
                       channel_url := some ch.url
                       language := some (td.language.getD ch.language)
                       source_type := td.source_type
                       total_entries := td.total_entries
                       fetched_at := td.fetched_at } (some path) now)
            | none =>
                ({ base with
                     status := "error"
                     error := some "Failed to save transcript to cache" }, db)

end CM

namespace CM

/-- The channel-level result dictionary of `process_channel`. -/
structure ChannelResult where
  channel_name : String
  channel_url : String
  videos_found : Nat := 0
  new_transcripts : Nat := 0
  cached_transcripts : Nat := 0
  errors : List String := []
  processed_videos : List VideoResult := []
deriving Repr, DecidableEq

/-- The per-video tally step of `process_channel`'s loop. -/
def tallyVideo (acc : ChannelResult × YT.DB) (env : Env) (v : VideoMeta)
    (ch : ChannelConfig) (force_refresh : Bool) (now : Nat) :
    ChannelResult × YT.DB :=
  let (res, db') := process_video env acc.2 v ch force_refresh now
  let cr := acc.1
  let cr := { cr with processed_videos := cr.processed_videos ++ [res] }
  let cr :=
    if res.status = "new_transcript" then
      { cr with new_transcripts := cr.new_transcripts + 1 }
    else if res.status = "cached" then
      { cr with cached_transcripts := cr.cached_transcripts + 1 }
    else if res.status = "error" then
      { cr with errors := cr.errors ++ [pyStr res.error] }
    else cr
  (cr, db')

/-- `YouTubeChannelManager.process_channel`: list the channel's latest videos
(the listing call may raise — the surrounding handler turns that into a
single entry in the `errors` list and returns the partial result), then
process each video in listing order, tallying outcomes. -/
def process_channel (env : Env) (db : YT.DB) (ch : ChannelConfig)
    (force_refresh : Bool) (now : Nat) : ChannelResult × YT.DB :=
  let base : ChannelResult := { channel_name := ch.name, channel_url := ch.url }
  match env.latest_videos ch.url ch.max_videos with
  | .error e =>
      ({ base with errors := ["Error processing channel " ++ ch.name ++ ": " ++ e] }, db)
  | .ok videos =>
      videos.foldl (fun acc v => tallyVideo acc env v ch force_refresh now)
        ({ base with videos_found := videos.length }, db)

/-- The overall results dictionary of `process_all_channels`. -/
structure OverallResults where
  total_channels : Nat
  processed_channels : Nat := 0
  total_videos_found : Nat := 0
  total_new_transcripts : Nat := 0
  total_cached_transcripts : Nat := 0
  total_errors : Nat := 0
  channel_results : List ChannelResult := []
deriving Repr, DecidableEq

/-- The per-channel tally step of `process_all_channels`'s loop. -/
def tallyChannel (env : Env) (force_refresh : Bool) (now : Nat)
    (acc : OverallResults × YT.DB) (ch : ChannelConfig) : OverallResults × YT.DB :=
  let pr := process_channel env acc.2 ch force_refresh now
  ({ acc.1 with
      processed_channels := acc.1.processed_channels + 1
      total_videos_found := acc.1.total_videos_found + pr.1.videos_found
      total_new_transcripts := acc.1.total_new_transcripts + pr.1.new_transcripts
      total_cached_transcripts := acc.1.total_cached_transcripts + pr.1.cached_transcripts
      total_errors := acc.1.total_errors + pr.1.errors.length
      channel_results := acc.1.channel_results ++ [pr.1] }, pr.2)

/-- `YouTubeChannelManager.process_all_channels`: fold over the configured
channels in order.  The per-channel try/except of the source is unreachable
in this model because `process_channel` catches its own exceptions; the
isolation of a failing video-listing call comes from that internal handler,
which converts the exception into one `errors` entry. -/
def process_all_channels (env : Env) (db : YT.DB)
    (channels : List ChannelConfig) (force_refresh : Bool) (now : Nat) :
    OverallResults × YT.DB :=
  channels.foldl (tallyChannel env force_refresh now)
    ({ total_channels := channels.length }, db)

end CM

namespace YT

theorem get_video_by_url_nil (u : String) : get_video_by_url [] u = none := rfl

theorem get_video_by_url_cons (a : VideoRow) (t : DB) (u : String) :
    get_video_by_url (a :: t) u =
      if a.url = u then some a else get_video_by_url t u := by
  simp only [get_video_by_url, List.find?_cons]
  by_cases h : a.url = u <;> simp [h]

theorem get_video_by_url_updateRow (db : DB) (u : String) (f : VideoRow → VideoRow)
    (hf : ∀ r, (f r).url = r.url) :
    get_video_by_url (updateRow u f db) u = (get_video_by_url db u).map f := by
  induction db with
  | nil => rfl
  | cons a t ih =>
    by_cases h : a.url = u
    · simp [updateRow, get_video_by_url_cons, h, hf a]
    · simpa [updateRow, get_video_by_url_cons, h] using ih

theorem get_video_by_url_updateRow_ne (db : DB) (u u' : String)
    (f : VideoRow → VideoRow) (hf : ∀ r, (f r).url = r.url) (h : u' ≠ u) :
    get_video_by_url (updateRow u f db) u' = get_video_by_url db u' := by
  induction db with
  | nil => rfl
  | cons a t ih =>
    have hu : (if a.url = u then f a else a).url = a.url := by
      split
      · exact hf a
      · rfl
    have hcons : updateRow u f (a :: t) = (if a.url = u then f a else a) :: updateRow u f t := rfl
    rw [hcons, get_video_by_url_cons, get_video_by_url_cons, hu]
    by_cases ha' : a.url = u'
    · have ha : a.url ≠ u := fun hh => h (by rw [← ha', hh])
      have hne : ¬(u' = u) := h
      simp [ha', hne]
    · simp [ha', ih]

theorem get_video_by_url_append (db1 db2 : DB) (u : String) :
    get_video_by_url (db1 ++ db2) u =
      (get_video_by_url db1 u).or (get_video_by_url db2 u) := by
  simp [get_video_by_url, List.find?_append]

theorem countP_updateRow (db : DB) (u : String) (f : VideoRow → VideoRow)
    (hf : ∀ r, (f r).url = r.url) (x : String) :
    (updateRow u f db).countP (fun r => r.url = x) =
      db.countP (fun r => r.url = x) := by
  unfold updateRow
  rw [List.countP_map]
  apply List.countP_congr
  intro r _
  by_cases h : r.url = u <;> simp [h, hf r]

theorem mem_updateRow (db : DB) (u : String) (f : VideoRow → VideoRow)
    (x : VideoRow) :
    x ∈ updateRow u f db ↔
      ∃ r ∈ db, x = if r.url = u then f r else r := by
  simp only [updateRow, List.mem_map]
  constructor
  · rintro ⟨r, hr, rfl⟩; exact ⟨r, hr, rfl⟩
  · rintro ⟨r, hr, rfl⟩; exact ⟨r, hr, rfl⟩

theorem mem_sort_filter {rel : VideoRow → VideoRow → Prop} [DecidableRel rel]
    (p : VideoRow → Bool) (db : DB) (x : VideoRow) :
    x ∈ List.insertionSort rel (db.filter p) ↔ x ∈ db ∧ p x = true := by
  rw [List.mem_insertionSort, List.mem_filter]

theorem applyLimit_some (n : Nat) (l : List VideoRow) :
    applyLimit (some n) l = if n = 0 then l else l.take n := rfl

theorem mem_applyLimit (lim : Option Nat) (l : List VideoRow) (x : VideoRow)
    (h : x ∈ applyLimit lim l) : x ∈ l := by
  cases lim with
  | none => exact h
  | some n =>
    rw [applyLimit_some] at h
    by_cases hn : n = 0
    · simpa [hn] using h
    · rw [if_neg hn] at h
      exact List.take_subset n l h

theorem applyLimit_none_eq (l : List VideoRow) : applyLimit none l = l := rfl

theorem mem_applyLimit_none (lim : Option Nat) (l : List VideoRow) (x : VideoRow)
    (hlim : lim = none) (h : x ∈ l) : x ∈ applyLimit lim l := by
  subst hlim; exact h

theorem sorted_applyLimit {rel : VideoRow → VideoRow → Prop} (lim : Option Nat)
    (l : List VideoRow) (h : List.Sorted rel l) :
    List.Sorted rel (applyLimit lim l) := by
  cases lim with
  | none => exact h
  | some n =>
    rw [applyLimit_some]
    by_cases hn : n = 0
    · simpa [hn] using h
    · rw [if_neg hn]
      exact List.Pairwise.sublist (List.take_sublist n l) h

theorem length_applyLimit_le (n : Nat) (l : List VideoRow) (hn : n ≠ 0) :
    (applyLimit (some n) l).length ≤ n := by
  rw [applyLimit_some, if_neg hn, List.length_take]
  exact Nat.min_le_left n l.length

end YT

namespace YT

theorem llm_processed_column_missing :
    youtube_videos_columns.contains "llm_processed" = false := by decide

theorem llm_processed_in_spec_fields :
    spec_video_record_fields.contains "llm_processed" = true := by decide

theorem exclusive_iff (db : DB) :
    exclusive db = true ↔
      ∀ r ∈ db, r.summary_processed = true → r.summary_error = none := by
  unfold exclusive
  rw [List.all_eq_true]
  constructor
  · intro h r hr hp
    have hx := h r hr
    rw [hp] at hx
    simpa using hx
  · intro h r hr
    by_cases hp : r.summary_processed = true
    · simp [hp, h r hr hp]
    · rw [Bool.not_eq_true] at hp
      simp [hp]

theorem exclusive_updateRow (db : DB) (u : String) (f : VideoRow → VideoRow)
    (hdb : exclusive db = true)
    (hf : ∀ r ∈ db, r.url = u → (f r).summary_processed = true →
      (f r).summary_error = none) :
    exclusive (updateRow u f db) = true := by
  rw [exclusive_iff] at hdb ⊢
  intro r hr hp
  rw [mem_updateRow] at hr
  obtain ⟨r0, hr0, hx⟩ := hr
  subst hx
  by_cases h : r0.url = u
  · rw [if_pos h] at hp ⊢
    exact hf r0 hr0 h hp
  · rw [if_neg h] at hp ⊢
    exact hdb r0 hr0 hp

theorem exclusive_applyOp (db : DB) (op : StoreOp) (hdb : exclusive db = true)
    (hop : (match op with
            | .markError u _ _ => db.all (fun r => !(r.url == u) || !r.summary_processed)
            | _ => true) = true) :
    exclusive (applyOp db op) = true := by
  cases op with
  | save vd tp now =>
    show exclusive (save_video db vd tp now) = true
    unfold save_video
    cases hg : get_video_by_url db vd.url with
    | some w =>
      apply exclusive_updateRow db _ _ hdb
      intro r hr _ hp
      exact (exclusive_iff db).mp hdb r hr hp
    | none =>
      rw [exclusive_iff]
      intro r hr hp
      rw [List.mem_append] at hr
      rcases hr with hr | hr
      · exact (exclusive_iff db).mp hdb r hr hp
      · rw [List.mem_singleton] at hr
        subst hr
        simp at hp
  | markProcessed u t a now =>
    apply exclusive_updateRow db _ _ hdb
    intro r _ _ _
    rfl
  | markError u m now =>
    apply exclusive_updateRow db _ _ hdb
    intro r hr hu hp
    rw [List.all_eq_true] at hop
    have := hop r hr
    rw [hu] at this
    simp at this
    rw [show ({ r with summary_error := some m, updated_at := now } : VideoRow).summary_processed
          = r.summary_processed from rfl] at hp
    rw [hp] at this
    exact absurd this (by simp)
  | markLLM u now =>
    show exclusive (mark_llm_processed db u now).2 = true
    unfold mark_llm_processed
    rw [llm_processed_column_missing]
    simpa using hdb

theorem exclusive_runOps (db : DB) (ops : List StoreOp)
    (hdb : exclusive db = true) (hs : safeOps db ops = true) :
    exclusive (runOps db ops) = true := by
  induction ops generalizing db with
  | nil => exact hdb
  | cons op rest ih =>
    unfold safeOps at hs
    rw [Bool.and_eq_true] at hs
    exact ih (applyOp db op) (exclusive_applyOp db op hdb hs.1) hs.2

end YT

namespace Mgr

theorem head?_filter_map {α : Type} (nm : α → String) (cfg : α → Bool)
    (ps : List α) :
    ((ps.filter (fun p => cfg p)).map nm).head? =
      (ps.find? (fun p => cfg p)).map nm := by
  induction ps with
  | nil => rfl
  | cons a t ih =>
    by_cases h : cfg a = true <;>
      simp [List.filter_cons, List.find?_cons, h, ih]

theorem find?_name_of_first_configured {α : Type} (nm : α → String)
    (cfg : α → Bool) (ps : List α) (hn : (ps.map nm).Nodup) (p : α)
    (hp : ps.find? (fun q => cfg q) = some p) :
    ps.find? (fun q => nm q = nm p) = some p := by
  induction ps with
  | nil => simp at hp
  | cons a t ih =>
    rw [List.map_cons, List.nodup_cons] at hn
    by_cases h : cfg a = true
    · rw [List.find?_cons] at hp
      simp only [h] at hp
      rw [Option.some_inj] at hp
      subst hp
      rw [List.find?_cons]
      simp
    · rw [List.find?_cons] at hp
      simp only [h] at hp
      have hmem : p ∈ t := List.mem_of_find?_eq_some hp
      have hne : ¬(nm a = nm p) := fun hh => hn.1 (hh ▸ List.mem_map_of_mem nm hmem)
      rw [List.find?_cons]
      have hd : (decide (nm a = nm p)) = false := by simp [hne]
      rw [hd]
      exact ih hn.2 hp

end Mgr

namespace YT

/-- A sample video-metadata dictionary. -/
def exData1 : VideoData :=
  { url := "https://youtu.be/v1", video_id := some "v1", title := some "T1" }

/-- A one-row store: the sample video saved with a transcript path at time 1. -/
def exDB1 : DB := save_video [] exData1 (some "cache/v1.json") 1

/-- C2: the claim fails on the code — a code bug.  The CREATE TABLE of
`_initialize_tables` omits the `llm_processed` column that the spec's
VideoRecord enumerates and that the class's own `mark_llm_processed`,
`get_unprocessed_videos` and `get_database_stats` reference.  On a freshly
initialized database `mark_llm_processed` therefore returns false (sqlite
rejects the UPDATE, the handler swallows the error) with the store
unchanged, and `get_unprocessed_videos` returns the empty list even though
an unprocessed video with a transcript is stored. -/
theorem C2_llm_processed_schema_bug :
    youtube_videos_columns.contains "llm_processed" = false ∧
    spec_video_record_fields.contains "llm_processed" = true ∧
    (mark_llm_processed exDB1 "https://youtu.be/v1" 2).1 = false ∧
    (mark_llm_processed exDB1 "https://youtu.be/v1" 2).2 = exDB1 ∧
    get_unprocessed_videos exDB1 none = [] ∧
    (exDB1.filter (fun r => r.transcript_path.isSome)).length = 1 := by
  decide

/-- The operation sequence refuting C3 as stated: save a video, mark its
summary processed, then record a summary error for it. -/
def c3ops : List StoreOp :=
  [.save { url := "https://youtu.be/v1" } (some "cache/v1.json") 1,
   .markProcessed "https://youtu.be/v1" "a summary" (some "out.wav") 2,
   .markError "https://youtu.be/v1" "late failure" 3]

/-- C3 counterexample: from the empty store, the write sequence
save; mark_summary_processed; mark_summary_error reaches a state whose only
record has `summary_processed = true` and a non-null `summary_error`
(`mark_summary_error` never touches `summary_processed`), so the exclusivity
invariant does not hold in every reachable state. -/
theorem C3_counterexample :
    (runOps [] c3ops).map (fun r => (r.summary_processed, r.summary_error)) =
      [(true, some "late failure")] ∧
    exclusive (runOps [] c3ops) = false := by
  decide

/-- C3 amended: the exclusivity invariant holds in every state reachable
from the empty store by write sequences in which `mark_summary_error` is
only applied to urls whose record is not currently summary-processed
(`safeOps`); and `mark_summary_processed` always clears `summary_error` for
the matched record — in particular a retry success clears a previously
non-null error. -/
theorem C3_exclusivity_amended (ops : List StoreOp) (u t : String)
    (a : Option String) (now : Nat) (r : VideoRow)
    (hs : safeOps [] ops = true)
    (hmem : r ∈ mark_summary_processed (runOps [] ops) u t a now)
    (hurl : r.url = u) :
    exclusive (runOps [] ops) = true ∧
    r.summary_processed = true ∧ r.summary_error = none := by
  refine ⟨exclusive_runOps [] ops rfl hs, ?_⟩
  rw [mark_summary_processed, mem_updateRow] at hmem
  obtain ⟨r0, _, hx⟩ := hmem
  by_cases h : r0.url = u
  · rw [if_pos h] at hx
    subst hx
    exact ⟨rfl, rfl⟩
  · rw [if_neg h] at hx
    subst hx
    exact absurd hurl h

/-- The operation sequence for the C3 witness: a save followed by an error
mark on the still-unprocessed record (a safe schedule). -/
def c3wops : List StoreOp :=
  [.save { url := "https://youtu.be/v1" } (some "cache/v1.json") 1,
   .markError "https://youtu.be/v1" "first attempt failed" 2]

/-- The record produced by the retry success in the C3 witness run. -/
def c3wrow : VideoRow :=
  match mark_summary_processed (runOps [] c3wops) "https://youtu.be/v1" "a summary"
      (some "out.wav") 3 with
  | r :: _ => r
  | [] => { url := "", video_id := none, title := none, channel_name := none,
            channel_url := none, transcript_path := none, language := none,
            source_type := none, total_entries := 0, summary_processed := false,
            summary_text := none, summary_audio_path := none,
            summary_processed_at := none, summary_error := none,
            created_at := 0, updated_at := 0, fetched_at := none }

theorem C3_exclusivity_amended_witness :
    (safeOps [] c3wops = true ∧
     c3wrow ∈ mark_summary_processed (runOps [] c3wops) "https://youtu.be/v1"
       "a summary" (some "out.wav") 3 ∧
     c3wrow.url = "https://youtu.be/v1") ∧
    (exclusive (runOps [] c3wops) = true ∧
     c3wrow.summary_processed = true ∧ c3wrow.summary_error = none) :=
  ⟨⟨by decide, by decide, by decide⟩,
   C3_exclusivity_amended c3wops "https://youtu.be/v1" "a summary" (some "out.wav") 3
     c3wrow (by decide) (by decide) (by decide)⟩

end YT

namespace YT

theorem save_video_update (db : DB) (vd : VideoData) (tp : Option String)
    (now : Nat) (w : VideoRow) (h : get_video_by_url db vd.url = some w) :
    save_video db vd tp now =
      updateRow vd.url (fun r =>
        { r with
          title := vd.title
          channel_name := vd.channel_name
          channel_url := vd.channel_url
          transcript_path := tp
          language := vd.language
          source_type := vd.source_type
          total_entries := vd.total_entries
          updated_at := now
          fetched_at := vd.fetched_at }) db := by
  unfold save_video
  rw [h]

theorem save_video_insert (db : DB) (vd : VideoData) (tp : Option String)
    (now : Nat) (h : get_video_by_url db vd.url = none) :
    save_video db vd tp now =
      db ++ [{ url := vd.url
               video_id := vd.video_id
               title := vd.title
               channel_name := vd.channel_name
               channel_url := vd.channel_url
               transcript_path := tp
               language := vd.language
               source_type := vd.source_type
               total_entries := vd.total_entries
               summary_processed := false
               summary_text := none
               summary_audio_path := none
               summary_processed_at := none
               summary_error := none
               created_at := now
               updated_at := now
               fetched_at := vd.fetched_at }] := by
  unfold save_video
  rw [h]

/-- C4 amended: a stored record with `summary_processed = false`, NULL
`summary_error` and a non-null `transcript_path` is among the rows returned
by `get_unsummarized_videos` (no channel filter, no limit), exactly as
claimed; a stored record with a non-null `summary_error` is among the rows
returned by `get_failed_summaries` (no limit) only under the additional
condition the query itself imposes, a non-null `transcript_path`. -/
theorem C4_eligibility_amended (db : DB) (r : VideoRow) (hr : r ∈ db) :
    (r.summary_processed = false → r.summary_error = none →
      r.transcript_path.isSome = true →
      r ∈ get_unsummarized_videos db none none) ∧
    (r.summary_error.isSome = true → r.transcript_path.isSome = true →
      r ∈ get_failed_summaries db none) := by
  constructor
  · intro h1 _ h3
    unfold get_unsummarized_videos
    rw [applyLimit_none_eq, mem_sort_filter]
    exact ⟨hr, by simp [unsummarizedMatch, effChannel, h1, h3]⟩
  · intro h1 h2
    unfold get_failed_summaries
    rw [applyLimit_none_eq, mem_sort_filter]
    exact ⟨hr, by simp [failedMatch, h1, h2]⟩

/-- The operation sequence refuting the retry half of C4 as stated: a video
saved without a transcript whose summary errored. -/
def c4ops : List StoreOp :=
  [.save { url := "https://youtu.be/v2" } none 1,
   .markError "https://youtu.be/v2" "llm failed" 2]

/-- C4 counterexample: a stored record with a non-null `summary_error` but a
NULL `transcript_path` is NOT among the rows of `get_failed_summaries`,
because the query additionally requires `transcript_path IS NOT NULL` —
refuting "a non-null summary_error, regardless of summary_processed, makes
it eligible for retry". -/
theorem C4_counterexample :
    ((runOps [] c4ops).map (fun r => (r.summary_error, r.transcript_path))) =
      [(some "llm failed", none)] ∧
    get_failed_summaries (runOps [] c4ops) none = [] := by
  decide

/-- The row stored in `exDB1` (fallback never used). -/
def exRow1 : VideoRow :=
  exDB1.headD
    { url := "", video_id := none, title := none, channel_name := none,
      channel_url := none, transcript_path := none, language := none,
      source_type := none, total_entries := 0, summary_processed := false,
      summary_text := none, summary_audio_path := none,
      summary_processed_at := none, summary_error := none,
      created_at := 0, updated_at := 0, fetched_at := none }

theorem C4_eligibility_amended_witness :
    exRow1 ∈ exDB1 ∧ exRow1 ∈ get_unsummarized_videos exDB1 none none :=
  ⟨by decide,
   (C4_eligibility_amended exDB1 exRow1 (by decide)).1 (by decide) (by decide)
     (by decide)⟩

/-- C5: idempotent upsert.  Starting from any store with no row for the url,
saving twice leaves exactly one row for that url; the second save takes the
UPDATE branch, which rewrites the mutable metadata columns and `updated_at`
(to `t2`) but never writes `created_at` (which keeps the first save's `t1`)
nor `video_id`. -/
theorem C5_idempotent_upsert (db : DB) (vd vd' : VideoData)
    (tp tp' : Option String) (t1 t2 : Nat)
    (h0 : get_video_by_url db vd.url = none) (hurl : vd'.url = vd.url) :
    (save_video (save_video db vd tp t1) vd' tp' t2).countP
        (fun r => r.url = vd.url) = 1 ∧
    ∃ r1, get_video_by_url (save_video db vd tp t1) vd.url = some r1 ∧
      r1.created_at = t1 ∧ r1.updated_at = t1 ∧ r1.video_id = vd.video_id ∧
      get_video_by_url (save_video (save_video db vd tp t1) vd' tp' t2) vd.url =
        some { r1 with
               title := vd'.title
               channel_name := vd'.channel_name
               channel_url := vd'.channel_url
               transcript_path := tp'
               language := vd'.language
               source_type := vd'.source_type
               total_entries := vd'.total_entries
               updated_at := t2
               fetched_at := vd'.fetched_at } := by
  rw [save_video_insert db vd tp t1 h0]
  have g1 : get_video_by_url
      (db ++ [{ url := vd.url, video_id := vd.video_id, title := vd.title,
                channel_name := vd.channel_name, channel_url := vd.channel_url,
                transcript_path := tp, language := vd.language,
                source_type := vd.source_type, total_entries := vd.total_entries,
                summary_processed := false, summary_text := none,
                summary_audio_path := none, summary_processed_at := none,
                summary_error := none, created_at := t1, updated_at := t1,
                fetched_at := vd.fetched_at }]) vd.url =
      some { url := vd.url, video_id := vd.video_id, title := vd.title,
             channel_name := vd.channel_name, channel_url := vd.channel_url,
             transcript_path := tp, language := vd.language,
             source_type := vd.source_type, total_entries := vd.total_entries,
             summary_processed := false, summary_text := none,
             summary_audio_path := none, summary_processed_at := none,
             summary_error := none, created_at := t1, updated_at := t1,
             fetched_at := vd.fetched_at } := by
    rw [get_video_by_url_append, h0]
    simp [get_video_by_url_cons]
  have g1' : get_video_by_url
      (db ++ [{ url := vd.url, video_id := vd.video_id, title := vd.title,
                channel_name := vd.channel_name, channel_url := vd.channel_url,
                transcript_path := tp, language := vd.language,
                source_type := vd.source_type, total_entries := vd.total_entries,
                summary_processed := false, summary_text := none,
                summary_audio_path := none, summary_processed_at := none,
                summary_error := none, created_at := t1, updated_at := t1,
                fetched_at := vd.fetched_at }]) vd'.url =
      some { url := vd.url, video_id := vd.video_id, title := vd.title,
             channel_name := vd.channel_name, channel_url := vd.channel_url,
             transcript_path := tp, language := vd.language,
             source_type := vd.source_type, total_entries := vd.total_entries,
             summary_processed := false, summary_text := none,
             summary_audio_path := none, summary_processed_at := none,
             summary_error := none, created_at := t1, updated_at := t1,
             fetched_at := vd.fetched_at } := by
    rw [hurl]
    exact g1
  rw [save_video_update _ vd' tp' t2 _ g1']
  constructor
  · rw [countP_updateRow]
    · rw [List.countP_append]
      have hz : db.countP (fun r => r.url = vd.url) = 0 := by
        rw [List.countP_eq_zero]
        intro a ha
        have := List.find?_eq_none.mp h0 a ha
        simpa using this
      simp [hz]
    · intro r
      rfl
  · refine ⟨_, g1, rfl, rfl, rfl, ?_⟩
    rw [hurl, get_video_by_url_updateRow]
    · rw [g1]
      rfl
    · intro r
      rfl

/-- C5 witness data: two metadata dictionaries sharing a url. -/
def c5vd : VideoData :=
  { url := "https://youtu.be/v5", video_id := some "v5", title := some "first" }

def c5vd' : VideoData :=
  { url := "https://youtu.be/v5", video_id := some "ignored", title := some "second" }

theorem C5_idempotent_upsert_witness :
    (get_video_by_url [] "https://youtu.be/v5" = none ∧ c5vd'.url = c5vd.url) ∧
    ((save_video (save_video [] c5vd (some "p1") 1) c5vd' (some "p2") 2).countP
        (fun r => r.url = c5vd.url) = 1 ∧
     ∃ r1, get_video_by_url (save_video [] c5vd (some "p1") 1) c5vd.url = some r1 ∧
       r1.created_at = 1 ∧ r1.updated_at = 1 ∧ r1.video_id = c5vd.video_id ∧
       get_video_by_url (save_video (save_video [] c5vd (some "p1") 1) c5vd' (some "p2") 2)
           c5vd.url =
         some { r1 with
                title := c5vd'.title
                channel_name := c5vd'.channel_name
                channel_url := c5vd'.channel_url
                transcript_path := some "p2"
                language := c5vd'.language
                source_type := c5vd'.source_type
                total_entries := c5vd'.total_entries
                updated_at := 2
                fetched_at := c5vd'.fetched_at }) :=
  ⟨⟨by decide, by decide⟩,
   C5_idempotent_upsert [] c5vd c5vd' (some "p1") (some "p2") 1 2 (by decide) (by decide)⟩

/-- C10: frame effect of `save_video` on an existing record — the UPDATE
branch leaves `summary_processed`, `summary_text`, `summary_audio_path`,
`summary_processed_at`, `summary_error` and `created_at` (and `video_id`)
exactly as they were, and unconditionally overwrites `transcript_path` with
the `transcript_path` argument, which defaults to None — so re-saving
metadata without a transcript path clears a previously stored one. -/
theorem C10_save_video_frame (db : DB) (vd : VideoData) (tp : Option String)
    (now : Nat) (r0 : VideoRow) (h : get_video_by_url db vd.url = some r0) :
    get_video_by_url (save_video db vd tp now) vd.url =
      some { r0 with
             title := vd.title
             channel_name := vd.channel_name
             channel_url := vd.channel_url
             transcript_path := tp
             language := vd.language
             source_type := vd.source_type
             total_entries := vd.total_entries
             updated_at := now
             fetched_at := vd.fetched_at } := by
  rw [save_video_update db vd tp now r0 h]
  rw [get_video_by_url_updateRow]
  · rw [h]
    rfl
  · intro r
    rfl

/-- The no-transcript re-save of the C10 witness (the channel manager's
no-transcript branch passes no transcript path). -/
def c10vd : VideoData :=
  { url := "https://youtu.be/v1", video_id := some "v1", title := some "T1" }

theorem C10_save_video_frame_witness :
    (get_video_by_url exDB1 "https://youtu.be/v1" = some exRow1 ∧
     exRow1.transcript_path = some "cache/v1.json") ∧
    get_video_by_url (save_video exDB1 c10vd none 5) "https://youtu.be/v1" =
      some { exRow1 with
             title := c10vd.title
             channel_name := c10vd.channel_name
             channel_url := c10vd.channel_url
             transcript_path := none
             language := c10vd.language
             source_type := c10vd.source_type
             total_entries := c10vd.total_entries
             updated_at := 5
             fetched_at := c10vd.fetched_at } :=
  ⟨⟨by decide, by decide⟩,
   C10_save_video_frame exDB1 c10vd none 5 exRow1 (by decide)⟩

end YT

namespace YT

/-- C9 amended: `get_video_by_url` returns the (full) stored row for the url
or none; `get_videos_by_channel` returns rows of that channel ordered
newest-first (descending `created_at`); `get_unsummarized_videos` returns its
matching rows ordered oldest-first (ascending `created_at`); both respect a
positive limit.  `get_unprocessed_videos`, however, always returns the empty
list — its query references the `llm_processed` column missing from the
schema, so it never returns any rows to order. -/
theorem C9_query_contracts_amended (db : DB) (u ch : String)
    (chq : Option String) (lim : Option Nat) (n : Nat) (x : VideoRow) :
    (get_video_by_url db u = some x → x ∈ db ∧ x.url = u) ∧
    (get_video_by_url db u = none → x ∈ db → x.url ≠ u) ∧
    List.Sorted createdDesc (get_videos_by_channel db ch lim) ∧
    (x ∈ get_videos_by_channel db ch lim → x ∈ db ∧ x.channel_url = some ch) ∧
    (lim = none → x ∈ db → x.channel_url = some ch →
      x ∈ get_videos_by_channel db ch lim) ∧
    List.Sorted createdAsc (get_unsummarized_videos db chq lim) ∧
    (x ∈ get_unsummarized_videos db chq lim →
      x ∈ db ∧ unsummarizedMatch chq x = true) ∧
    (lim = none → x ∈ db → unsummarizedMatch chq x = true →
      x ∈ get_unsummarized_videos db chq lim) ∧
    (lim = some n → n ≠ 0 →
      (get_videos_by_channel db ch lim).length ≤ n ∧
      (get_unsummarized_videos db chq lim).length ≤ n) ∧
    get_unprocessed_videos db lim = [] := by
  refine ⟨?_, ?_, ?_, ?_, ?_, ?_, ?_, ?_, ?_, ?_⟩
  · intro h
    refine ⟨List.mem_of_find?_eq_some h, ?_⟩
    have := List.find?_some h
    simpa using this
  · intro h hx
    have := List.find?_eq_none.mp h x hx
    simpa using this
  · exact sorted_applyLimit lim _ (List.sorted_insertionSort createdDesc _)
  · intro hx
    have hm := mem_applyLimit lim _ x hx
    rw [mem_sort_filter] at hm
    refine ⟨hm.1, ?_⟩
    have := hm.2
    unfold channelMatch at this
    simpa using this
  · intro hlim hx hc
    subst hlim
    unfold get_videos_by_channel
    rw [applyLimit_none_eq, mem_sort_filter]
    exact ⟨hx, by simp [channelMatch, hc]⟩
  · exact sorted_applyLimit lim _ (List.sorted_insertionSort createdAsc _)
  · intro hx
    have hm := mem_applyLimit lim _ x hx
    rw [mem_sort_filter] at hm
    exact hm
  · intro hlim hx hmatch
    subst hlim
    unfold get_unsummarized_videos
    rw [applyLimit_none_eq, mem_sort_filter]
    exact ⟨hx, hmatch⟩
  · intro hlim hn
    subst hlim
    exact ⟨length_applyLimit_le n _ hn, length_applyLimit_le n _ hn⟩
  · unfold get_unprocessed_videos
    rw [llm_processed_column_missing]
    simp

/-- C9 counterexample: on a store holding one never-llm-processed video with
a transcript — which the claim (and spec section 3, where every fresh
VideoRecord carries `llm_processed=false`) places among the rows
`get_unprocessed_videos` returns — the function returns the empty list,
because its WHERE clause names the `llm_processed` column that the schema
lacks and the error handler returns `[]`. -/
theorem C9_counterexample :
    exRow1 ∈ exDB1 ∧ exRow1.transcript_path.isSome = true ∧
    exRow1 ∉ get_unprocessed_videos exDB1 none := by
  decide

/-- Three videos of one channel saved at times 3, 1, 2 (urls v1, v2, v3). -/
def c9db : DB :=
  save_video
    (save_video
      (save_video []
        { url := "https://youtu.be/a", channel_url := some "https://yt/C" }
        (some "ta.json") 3)
      { url := "https://youtu.be/b", channel_url := some "https://yt/C" }
      (some "tb.json") 1)
    { url := "https://youtu.be/c", channel_url := some "https://yt/C" }
    (some "tc.json") 2

/-- The row of `c9db` for url b (fallback never used). -/
def c9rowb : VideoRow :=
  (get_video_by_url c9db "https://youtu.be/b").getD
    { url := "", video_id := none, title := none, channel_name := none,
      channel_url := none, transcript_path := none, language := none,
      source_type := none, total_entries := 0, summary_processed := false,
      summary_text := none, summary_audio_path := none,
      summary_processed_at := none, summary_error := none,
      created_at := 0, updated_at := 0, fetched_at := none }

theorem C9_query_contracts_amended_witness :
    c9rowb ∈ get_videos_by_channel c9db "https://yt/C" none ∧
    List.Sorted createdDesc (get_videos_by_channel c9db "https://yt/C" none) ∧
    c9rowb ∈ get_unsummarized_videos c9db none none ∧
    List.Sorted createdAsc (get_unsummarized_videos c9db none none) ∧
    (get_videos_by_channel c9db "https://yt/C" (some 2)).length ≤ 2 ∧
    get_unprocessed_videos c9db none = [] :=
  ⟨(C9_query_contracts_amended c9db "" "https://yt/C" none none 0 c9rowb).2.2.2.2.1
      rfl (by decide) (by decide),
   (C9_query_contracts_amended c9db "" "https://yt/C" none none 0 c9rowb).2.2.1,
   (C9_query_contracts_amended c9db "" "" none none 0 c9rowb).2.2.2.2.2.2.2.1
      rfl (by decide) (by decide),
   (C9_query_contracts_amended c9db "" "" none none 0 c9rowb).2.2.2.2.2.1,
   ((C9_query_contracts_amended c9db "" "https://yt/C" none (some 2) 2 c9rowb).2.2.2.2.2.2.2.2.1
      rfl (by decide)).1,
   (C9_query_contracts_amended c9db "" "" none none 0 c9rowb).2.2.2.2.2.2.2.2.2⟩

end YT

namespace Mgr

/-- C7: auto-selection determinism.  For each capability manager called with
a non-empty payload and no instance name: when some registered instance is
configured, the manager dispatches to the first configured instance in
registration order (its primary action is the only provider call); when no
registered instance is configured, it returns a FAILED result saying no
instances are configured, calling no provider's primary action. -/
theorem C7_auto_selection
    (psL : List LLMInstance) (psT : List TTSInstance)
    (psN : List NotificationInstance)
    (prompt text msg ts : String) (sys ofn : Option String)
    (pL : LLMInstance) (pT : TTSInstance) (pN : NotificationInstance)
    (hLn : (psL.map (fun p => p.name)).Nodup)
    (hTn : (psT.map (fun p => p.name)).Nodup)
    (hNn : (psN.map (fun p => p.name)).Nodup)
    (hprompt : ¬stripEmpty prompt = true) (htext : ¬stripEmpty text = true)
    (hmsg : ¬stripEmpty msg = true) :
    (psL.find? (fun p => p.configured) = some pL →
      generate_response psL prompt none sys =
        (pL.generate (sys.getD "") prompt, [pL.name])) ∧
    (psL.find? (fun p => p.configured) = none →
      generate_response psL prompt none sys =
        ({ status := .failed,
           error_details := some "No LLM provider instances are configured" }, [])) ∧
    (psT.find? (fun p => p.configured) = some pT →
      generate_speech psT text ofn none ts =
        (pT.generate_speech text (generate_filename ofn ts), [pT.name])) ∧
    (psT.find? (fun p => p.configured) = none →
      generate_speech psT text ofn none ts =
        ({ status := .failed,
           error_details := some "No TTS provider instances are configured" }, [])) ∧
    (psN.find? (fun p => p.configured) = some pN →
      send_message psN msg none =
        (pN.send_message msg, [pN.name])) ∧
    (psN.find? (fun p => p.configured) = none →
      send_message psN msg none =
        ({ status := .failed,
           error_details := some "No notification provider instances are configured" }, [])) := by
  refine ⟨?_, ?_, ?_, ?_, ?_, ?_⟩
  · intro hfind
    have hhead : (llmAvailable psL).head? = some pL.name := by
      unfold llmAvailable
      rw [head?_filter_map (fun (p : LLMInstance) => p.name) (fun p => p.configured) psL, hfind]
      rfl
    have hlook : psL.find? (fun q => q.name = pL.name) = some pL :=
      find?_name_of_first_configured (fun p => p.name) (fun p => p.configured)
        psL hLn pL hfind
    have hcfg : pL.configured = true := by
      simpa using List.find?_some hfind
    unfold generate_response
    rw [if_neg hprompt]
    simp only [hhead, hlook, hcfg]
    simp
  · intro hfind
    have hhead : (llmAvailable psL).head? = none := by
      unfold llmAvailable
      rw [head?_filter_map (fun (p : LLMInstance) => p.name) (fun p => p.configured) psL, hfind]
      rfl
    unfold generate_response
    rw [if_neg hprompt]
    simp only [hhead]
  · intro hfind
    have hhead : (ttsAvailable psT).head? = some pT.name := by
      unfold ttsAvailable
      rw [head?_filter_map (fun (p : TTSInstance) => p.name) (fun p => p.configured) psT, hfind]
      rfl
    have hlook : psT.find? (fun q => q.name = pT.name) = some pT :=
      find?_name_of_first_configured (fun p => p.name) (fun p => p.configured)
        psT hTn pT hfind
    have hcfg : pT.configured = true := by
      simpa using List.find?_some hfind
    unfold generate_speech
    rw [if_neg htext]
    simp only [hhead, hlook, hcfg]
    simp
  · intro hfind
    have hhead : (ttsAvailable psT).head? = none := by
      unfold ttsAvailable
      rw [head?_filter_map (fun (p : TTSInstance) => p.name) (fun p => p.configured) psT, hfind]
      rfl
    unfold generate_speech
    rw [if_neg htext]
    simp only [hhead]
  · intro hfind
    have hhead : (notifAvailable psN).head? = some pN.name := by
      unfold notifAvailable
      rw [head?_filter_map (fun (p : NotificationInstance) => p.name) (fun p => p.configured) psN, hfind]
      rfl
    have hlook : psN.find? (fun q => q.name = pN.name) = some pN :=
      find?_name_of_first_configured (fun p => p.name) (fun p => p.configured)
        psN hNn pN hfind
    have hcfg : pN.configured = true := by
      simpa using List.find?_some hfind
    unfold send_message
    rw [if_neg hmsg]
    simp only [hhead, hlook, hcfg]
    simp
  · intro hfind
    have hhead : (notifAvailable psN).head? = none := by
      unfold notifAvailable
      rw [head?_filter_map (fun (p : NotificationInstance) => p.name) (fun p => p.configured) psN, hfind]
      rfl
    unfold send_message
    rw [if_neg hmsg]
    simp only [hhead]

end Mgr

namespace Mgr

/-- Witness registry for C7: A unconfigured, B and C configured, in that
registration order. -/
def wLA : LLMInstance :=
  { name := "A", configured := false,
    generate := fun _ _ => { status := .failed, error_details := some "A backend" } }

def wLB : LLMInstance :=
  { name := "B", configured := true,
    generate := fun _ u => { status := .success, response := some ("B:" ++ u) } }

def wLC : LLMInstance :=
  { name := "C", configured := true,
    generate := fun _ _ => { status := .success, response := some "C" } }

def wTA : TTSInstance :=
  { name := "A", configured := false,
    generate_speech := fun _ _ => { status := .failed } }

def wTB : TTSInstance :=
  { name := "B", configured := true,
    generate_speech := fun _ f => { status := .success, output_file := some f } }

def wTC : TTSInstance :=
  { name := "C", configured := true,
    generate_speech := fun _ _ => { status := .success } }

def wNA : NotificationInstance :=
  { name := "A", configured := false,
    send_message := fun _ => { status := .failed } }

theorem C7_auto_selection_witness :
    generate_response [wLA, wLB, wLC] "hello" none none =
      ({ status := .success, response := some "B:hello" }, ["B"]) ∧
    generate_speech [wTA, wTB, wTC] "words" (some "out") none "ts" =
      ({ status := .success, output_file := some "out.wav" }, ["B"]) ∧
    send_message [wNA] "ping" none =
      ({ status := .failed,
         error_details := some "No notification provider instances are configured" }, []) := by
  have h := C7_auto_selection [wLA, wLB, wLC] [wTA, wTB, wTC] [wNA]
    "hello" "words" "ping" "ts" none (some "out") wLB wTB wNA
    (by decide) (by decide) (by decide) (by decide) (by decide) (by decide)
  refine ⟨?_, ?_, ?_⟩
  · rw [h.1 rfl]
    decide
  · rw [h.2.2.1 rfl]
    decide
  · rw [h.2.2.2.2.2 rfl]

end Mgr

namespace Summary

/-- C6: notification non-fatality.  In every pipeline run whose LLM stage
succeeds (with a response) and whose TTS stage succeeds, a non-SUCCESS
notification result leaves the outcome unchanged: the run returns
success = true and ends with `mark_summary_processed` applied — the stored
record has `summary_processed = true`, the summary text, a non-null
`summary_audio_path` and `summary_error = NULL` (the notification failure is
never recorded as a summary error). -/
theorem C6_notification_nonfatal (env : Env) (db : YT.DB)
    (video_url ts : String) (cfg? : Option SummaryConfig) (now : Nat)
    (r0 : YT.VideoRow) (tp t s : String) (td : TranscriptData)
    (h1 : YT.get_video_by_url db video_url = some r0)
    (h2 : r0.transcript_path = some tp)
    (h3 : ¬tp = "")
    (h4 : env.cache_load tp = some td)
    (h5 : td.text = some t)
    (h6 : ¬t = "")
    (h7 : (env.llm_generate t (cfg?.getD {}).llm_provider
            ((cfg?.getD {}).system_prompt.getD DEFAULT_SYSTEM_PROMPT)).status =
          Mgr.LLMStatus.success)
    (h8 : (env.llm_generate t (cfg?.getD {}).llm_provider
            ((cfg?.getD {}).system_prompt.getD DEFAULT_SYSTEM_PROMPT)).response = some s)
    (h9 : (env.tts_generate s ("summary_" ++ pyStr r0.video_id ++ "_" ++ ts ++ ".wav")
            (cfg?.getD {}).tts_provider).status = Mgr.TTSStatus.success)
    (_h10 : (env.notif_send
             (notification_message r0.title r0.channel_name ((pySplit s).length / 150))
             (cfg?.getD {}).notification_provider).status ≠
           Mgr.NotificationStatus.success) :
    (process_video_summary env db video_url cfg? ts now).1.success = true ∧
    YT.get_video_by_url (process_video_summary env db video_url cfg? ts now).2
        video_url =
      some { r0 with
             summary_processed := true
             summary_text := some s
             summary_audio_path := some (pyStr (env.tts_generate s
               ("summary_" ++ pyStr r0.video_id ++ "_" ++ ts ++ ".wav")
               (cfg?.getD {}).tts_provider).output_file)
             summary_processed_at := some now
             summary_error := none
             updated_at := now } := by
  have key : process_video_summary env db video_url cfg? ts now =
      ({ success := true
         video_title := r0.title
         summary_length := some s.length
         audio_path := some (pyStr (env.tts_generate s
           ("summary_" ++ pyStr r0.video_id ++ "_" ++ ts ++ ".wav")
           (cfg?.getD {}).tts_provider).output_file)
         text_path := some ("cache_data/summaries/text/summary_" ++
           pyStr r0.video_id ++ "_" ++ ts ++ ".txt") },
       YT.mark_summary_processed db video_url s
         (some (pyStr (env.tts_generate s
           ("summary_" ++ pyStr r0.video_id ++ "_" ++ ts ++ ".wav")
           (cfg?.getD {}).tts_provider).output_file)) now) := by
    simp [process_video_summary, h1, h2, h3, h4, h5, h6, h7, h8, h9]
  refine ⟨by rw [key], ?_⟩
  rw [key]
  show YT.get_video_by_url (YT.mark_summary_processed db video_url s _ now) video_url = _
  unfold YT.mark_summary_processed
  rw [YT.get_video_by_url_updateRow]
  · rw [h1]
    rfl
  · intro r
    rfl

end Summary

namespace CM

/-- The channel name of `process_channel`'s result is the configured name —
holds in both the listing-error branch and the per-video fold (whose step
never changes `channel_name`). -/
theorem process_channel_name (env : Env) (db : YT.DB) (ch : ChannelConfig)
    (force_refresh : Bool) (now : Nat) :
    (process_channel env db ch force_refresh now).1.channel_name = ch.name := by
  unfold process_channel
  cases env.latest_videos ch.url ch.max_videos with
  | error e => rfl
  | ok videos =>
    suffices h : ∀ (vs : List VideoMeta) (acc : ChannelResult × YT.DB),
        (vs.foldl (fun acc v => tallyVideo acc env v ch force_refresh now) acc).1.channel_name =
          acc.1.channel_name by
      exact h videos _
    intro vs
    induction vs with
    | nil => intro acc; rfl
    | cons v rest ih =>
      intro acc
      rw [List.foldl_cons, ih]
      show (tallyVideo acc env v ch force_refresh now).1.channel_name = _
      unfold tallyVideo
      rcases process_video env acc.2 v ch force_refresh now with ⟨res, db'⟩
      by_cases h1 : res.status = "new_transcript" <;>
        by_cases h2 : res.status = "cached" <;>
        by_cases h3 : res.status = "error" <;>
        simp [h1, h2, h3]

theorem foldl_tallyChannel_spec (env : Env) (force_refresh : Bool) (now : Nat) :
    ∀ (channels : List ChannelConfig) (acc : OverallResults × YT.DB),
      acc.1.total_errors =
        (acc.1.channel_results.map (fun c => c.errors.length)).sum →
      acc.1.processed_channels = acc.1.channel_results.length →
      ((channels.foldl (tallyChannel env force_refresh now) acc).1.total_errors =
        (((channels.foldl (tallyChannel env force_refresh now) acc).1.channel_results).map
          (fun c => c.errors.length)).sum) ∧
      ((channels.foldl (tallyChannel env force_refresh now) acc).1.processed_channels =
        ((channels.foldl (tallyChannel env force_refresh now) acc).1.channel_results).length) ∧
      ((channels.foldl (tallyChannel env force_refresh now) acc).1.channel_results.map
          (fun c => c.channel_name) =
        acc.1.channel_results.map (fun c => c.channel_name) ++
          channels.map (fun c => c.name)) := by
  intro channels
  induction channels with
  | nil =>
    intro acc h1 h2
    exact ⟨h1, h2, by simp⟩
  | cons ch rest ih =>
    intro acc h1 h2
    rw [List.foldl_cons]
    have step1 :
        (tallyChannel env force_refresh now acc ch).1.total_errors =
          (((tallyChannel env force_refresh now acc ch).1.channel_results).map
            (fun c => c.errors.length)).sum := by
      simp [tallyChannel, h1]
    have step2 :
        (tallyChannel env force_refresh now acc ch).1.processed_channels =
          ((tallyChannel env force_refresh now acc ch).1.channel_results).length := by
      simp [tallyChannel, h2]
    have := ih (tallyChannel env force_refresh now acc ch) step1 step2
    refine ⟨this.1, this.2.1, ?_⟩
    rw [this.2.2]
    simp [tallyChannel, process_channel_name]

end CM

namespace CM

/-- The three channels of the C8 scenario. -/
def c8ch1 : ChannelConfig :=
  { name := "one", scrap := true, url := "https://yt/one", max_videos := 5,
    language := "en", cache_folder := "cache/one" }

def c8ch2 : ChannelConfig :=
  { name := "two", scrap := true, url := "https://yt/two", max_videos := 5,
    language := "en", cache_folder := "cache/two" }

def c8ch3 : ChannelConfig :=
  { name := "three", scrap := true, url := "https://yt/three", max_videos := 5,
    language := "en", cache_folder := "cache/three" }

/-- The C8 environment: channel two's video-listing call raises; channel one
lists one video whose transcript fetch and cache save succeed; channel three
lists no videos. -/
def c8env : Env :=
  { latest_videos := fun u _ =>
      if u = "https://yt/two" then .error "listing boom"
      else if u = "https://yt/one" then
        .ok [{ id := some "v1", url := some "https://youtu.be/one1",
               title := some "t1" }]
      else .ok []
    video_transcript := fun _ _ =>
      .ok (some { text := some "some words", language := some "en",
                  total_entries := 3 })
    transcript_cached := fun _ _ _ => false
    save_transcript := fun _ _ _ _ => some "cache/one/v1_t1.json" }

/-- C8: channel-batch failure isolation.  `process_all_channels` produces one
channel result per configured channel, in configuration order, so an
exception in one channel's video-listing call (caught inside
`process_channel`) never prevents the remaining channels from being
processed, and `total_errors` equals the sum of the per-channel error
counts.  In the 3-channel scenario where only channel two's listing raises,
channels one and three still produce results and `total_errors` is
exactly 1. -/
theorem C8_channel_batch_isolation (env : Env) (db : YT.DB)
    (channels : List ChannelConfig) (force_refresh : Bool) (now : Nat) :
    ((process_all_channels env db channels force_refresh now).1.channel_results.map
        (fun c => c.channel_name) = channels.map (fun c => c.name)) ∧
    (process_all_channels env db channels force_refresh now).1.processed_channels =
      channels.length ∧
    (process_all_channels env db channels force_refresh now).1.total_errors =
      (((process_all_channels env db channels force_refresh now).1.channel_results).map
        (fun c => c.errors.length)).sum ∧
    ((process_all_channels c8env [] [c8ch1, c8ch2, c8ch3] false 7).1.total_errors = 1 ∧
     (process_all_channels c8env [] [c8ch1, c8ch2, c8ch3] false 7).1.channel_results.map
        (fun c => (c.channel_name, c.errors.length, c.new_transcripts, c.videos_found)) =
       [("one", 0, 1, 1), ("two", 1, 0, 0), ("three", 0, 0, 0)]) := by
  unfold process_all_channels
  have base := foldl_tallyChannel_spec env force_refresh now channels
    ({ total_channels := channels.length }, db) (by simp) (by simp)
  refine ⟨?_, ?_, base.1, by decide, by decide⟩
  · simpa using base.2.2
  · rw [base.2.1]
    simpa using congrArg List.length base.2.2

end CM

namespace Summary

/-- The C6 witness environment: cache hit, LLM and TTS succeed, the
notification provider fails. -/
def c6env : Env :=
  { cache_load := fun p =>
      if p = "cache/v1.json" then
        some { text := some "hello world", metadata_title := some "T1" }
      else none
    llm_generate := fun _ _ _ =>
      { status := .success, response := some "Summary text here" }
    tts_generate := fun _ f _ => { status := .success, output_file := some f }
    notif_send := fun _ _ =>
      { status := .failed, error_details := some "telegram down" } }

theorem C6_notification_nonfatal_witness :
    (process_video_summary c6env YT.exDB1 "https://youtu.be/v1" none "20260101" 9).1.success
      = true ∧
    YT.get_video_by_url
        (process_video_summary c6env YT.exDB1 "https://youtu.be/v1" none "20260101" 9).2
        "https://youtu.be/v1" =
      some { YT.exRow1 with
             summary_processed := true
             summary_text := some "Summary text here"
             summary_audio_path := some "summary_v1_20260101.wav"
             summary_processed_at := some 9
             summary_error := none
             updated_at := 9 } := by
  have h := C6_notification_nonfatal c6env YT.exDB1 "https://youtu.be/v1" "20260101"
    none 9 YT.exRow1 "cache/v1.json" "hello world" "Summary text here"
    { text := some "hello world", metadata_title := some "T1" }
    (by decide) (by decide) (by decide) (by decide) (by decide) (by decide)
    (by decide) (by decide) (by decide) (by decide)
  refine ⟨h.1, ?_⟩
  rw [h.2]
  decide

/-- The stored record of the C1 scenario: the row's own title is "T" and its
transcript path points at the cached transcript. -/
def c1row : YT.VideoRow :=
  { url := "https://youtu.be/c1", video_id := some "vid1", title := some "T",
    channel_name := some "Chan", channel_url := some "https://yt/C",
    transcript_path := some "cache/c1.json", language := some "en",
    source_type := some "auto", total_entries := 2, summary_processed := false,
    summary_text := none, summary_audio_path := none,
    summary_processed_at := none, summary_error := none,
    created_at := 1, updated_at := 1, fetched_at := none }

/-- The C1 environment: a cached transcript {text: "hello world",
metadata:{title:"T"}}, an LLM manager stub returning SUCCESS("Summary of T"),
a TTS manager stub returning SUCCESS(output_file="out.wav") and a
notification stub returning SUCCESS. -/
def c1env : Env :=
  { cache_load := fun p =>
      if p = "cache/c1.json" then
        some { text := some "hello world", metadata_title := some "T" }
      else none
    llm_generate := fun _ _ _ =>
      { status := .success, response := some "Summary of T" }
    tts_generate := fun _ _ _ =>
      { status := .success, output_file := some "out.wav" }
    notif_send := fun _ _ => { status := .success } }

/-- The C1 pipeline run. -/
def c1run : Result × YT.DB :=
  process_video_summary c1env [c1row] "https://youtu.be/c1" none
    "20260101_000000" 2

/-- C1 counterexample: in the claim's scenario the pipeline returns
summary_length = len("Summary of T") = 12, not the claimed 15. -/
theorem C1_counterexample :
    c1run.1.summary_length = some 12 ∧ "Summary of T".length = 12 ∧
    ¬c1run.1.summary_length = some 15 := by
  decide

/-- C1 amended: in the claim's scenario — the stored record carrying title
"T" and a transcript path to the cached transcript — process_video_summary
returns success = true, video_title "T" (read from the stored row's title
column, not from the transcript metadata) and summary_length 12 (the length
of "Summary of T"), and afterwards the stored row has
summary_processed = true, summary_text "Summary of T" and
summary_audio_path "out.wav". -/
theorem C1_end_to_end_amended :
    c1run.1 = { success := true, video_title := some "T",
                summary_length := some 12, audio_path := some "out.wav",
                text_path := some
                  "cache_data/summaries/text/summary_vid1_20260101_000000.txt" } ∧
    YT.get_video_by_url c1run.2 "https://youtu.be/c1" =
      some { c1row with
             summary_processed := true
             summary_text := some "Summary of T"
             summary_audio_path := some "out.wav"
             summary_processed_at := some 2
             updated_at := 2 } := by
  decide

end Summary
